import Mathlib

/-!
Verification development for the MarketPlace repository: a REST API server
(listings, users, authentication, favorites, image upload) with a React
Native client.  The definitions below shallowly embed the repository's
response-envelope helpers, the upload controller's response, the client
screens' error-message extraction and form validation, the listing-age
formatter, and the owned-resource CRUD pattern of the spec.
-/

set_option autoImplicit false

namespace Marketplace

/-- A JSON-like value, used to model the request/response bodies the server
emits with `res.json` and the client reads from `err.response.data`.
Numbers are modelled as integers (no claim depends on fractional values). -/
inductive JValue where
  | null
  | bool (b : Bool)
  | num (n : Int)
  | str (s : String)
  | arr (elems : List JValue)
  | obj (fields : List (String × JValue))
deriving Repr

/-- Field lookup in the field list of a JSON object: first binding wins,
`none` models JavaScript's `undefined` for an absent key. -/
def lookupField : List (String × JValue) → String → Option JValue
  | [], _ => none
  | (k, v) :: rest, key => if k = key then some v else lookupField rest key

/-- `v.getField key` models the JavaScript property access `v?.[key]`:
`none` when `v` is not an object or lacks the key. -/
def JValue.getField : JValue → String → Option JValue
  | .obj fields, key => lookupField fields key
  | _, _ => none

/-- JavaScript truthiness of a value: `null`, `false`, `0` and `""` are
falsy; every array and object is truthy. -/
def jsTruthy : JValue → Bool
  | .null => false
  | .bool b => b
  | .num n => decide (n ≠ 0)
  | .str s => decide (s ≠ "")
  | .arr _ => true
  | .obj _ => true

/-- The JavaScript expression `x || null` applied to a possibly-undefined
value (`none` models an omitted argument). -/
def jsOrNull : Option JValue → JValue
  | some v => if jsTruthy v then v else .null
  | none => .null

/-- Body produced by `sendSuccess` (utils, `src/unnamed/part_000`):
`res.status(statusCode).json(\x7b success: true, message, data: data || null \x7d)`.
The `errors` key is not written at all. -/
def sendSuccessBody (message : String) (data : Option JValue) : JValue :=
  .obj [("success", .bool true), ("message", .str message), ("data", jsOrNull data)]

/-- Body produced by `sendError` (utils, `src/unnamed/part_000`):
`res.status(statusCode).json(\x7b success: false, message, errors: errors || null \x7d)`.
The `data` key is not written at all. -/
def sendErrorBody (message : String) (errors : Option JValue) : JValue :=
  .obj [("success", .bool false), ("message", .str message), ("errors", jsOrNull errors)]

/-- Success body produced by `uploadImage`
(`src/server/src/controllers/upload.controller.ts`): it bypasses the
`sendSuccess` helper and calls `res.json` directly with a `message` and the
first 100 characters of the Base64 image followed by `"..."`. -/
def uploadImageBody (imageBase64 : String) : JValue :=
  .obj [("message", .str "Image received successfully"),
        ("base64Preview", .str ((imageBase64.take 100) ++ "..."))]

/-- Whether a JSON value is exactly the response envelope of spec §4.3:
an object whose keys are exactly `success` (a boolean), `message` (a
string), `data` and `errors`, in that shape. -/
def isEnvelope (v : JValue) : Bool :=
  match v with
  | .obj [("success", .bool _), ("message", .str _), ("data", _), ("errors", _)] => true
  | _ => false

/-- Message state set by `fetchFavorites` in
`src/client/screens/FavoritesScreen.tsx` when the service call fails:
`err.response?.data?.error?.message || 'Failed to fetch favorites'`,
applied to the response body carried by the error. -/
def favoritesErrorMessage (responseBody : JValue) : JValue :=
  match (responseBody.getField "error").bind (fun e => e.getField "message") with
  | some v => if jsTruthy v then v else .str "Failed to fetch favorites"
  | none => .str "Failed to fetch favorites"

/-! ## Error taxonomy and owned-resource CRUD pattern (spec §4.1, §7)

The listings controller itself is not part of the provided sources (only
its router, the error-message table, and the response helpers are), so the
CRUD operations below are modelled from the spec. -/

/-- Error taxonomy of spec §7: `ValidationError`, `NotFound`, `Forbidden`,
`Unauthorized`, `InternalError`, plus the `InvalidRequest` outcome of
`getById` in spec §4.1. -/
inductive ApiError where
  | validationError
  | notFound
  | forbidden
  | unauthorized
  | internalError
  | invalidRequest
deriving DecidableEq, Repr

/-- User-suppliable fields of a Listing (spec §3): title, description,
price (modelled as an integer number of cents), condition, category,
status. -/
structure ListingFields where
  title : String
  description : String
  price : Int
  condition : String
  category : String
  status : String
deriving DecidableEq, Repr

/-- A stored Listing: the user-supplied fields plus the owner reference
recorded at creation (spec §3). -/
structure Listing where
  ownerId : Nat
  fields : ListingFields
deriving DecidableEq, Repr

/-- A create payload as received from the client: the user-supplied fields,
plus an optional owner field that a client may have put in the body (spec
§8 requires it to be ignored). -/
structure CreatePayload where
  fields : ListingFields
  ownerField : Option Nat
deriving DecidableEq, Repr

/-- Modelled from the spec (§4.1 `create` validation, §3 bounds): required
fields present, title at most 100 characters, description at most 500
characters, price non-negative, condition and status from their enums. -/
def validListingFields (f : ListingFields) : Bool :=
  f.title ≠ "" && f.title.length ≤ 100 &&
  f.description ≠ "" && f.description.length ≤ 500 &&
  0 ≤ f.price &&
  (f.condition = "new" || f.condition = "used") &&
  f.category ≠ "" &&
  (f.status = "available" || f.status = "unavailable")

/-- The resource store: a document collection of listings keyed by
identifier, with the next fresh identifier. -/
structure ListingStore where
  entries : List (Nat × Listing)
  nextId : Nat
deriving DecidableEq, Repr

/-- Identifier lookup in the collection. -/
def findEntry : List (Nat × Listing) → Nat → Option Listing
  | [], _ => none
  | (i, e) :: rest, id => if i = id then some e else findEntry rest id

/-- Replace the entry with the given identifier. -/
def replaceEntry : List (Nat × Listing) → Nat → Listing → List (Nat × Listing)
  | [], _, _ => []
  | (i, e) :: rest, id, e' =>
      if i = id then (i, e') :: rest else (i, e) :: replaceEntry rest id e'

/-- Remove the entry with the given identifier. -/
def removeEntry : List (Nat × Listing) → Nat → List (Nat × Listing)
  | [], _ => []
  | (i, e) :: rest, id => if i = id then rest else (i, e) :: removeEntry rest id

/-- Identifiers already used in a store are below `nextId`. -/
def WellFormedStore (s : ListingStore) : Prop :=
  ∀ q ∈ s.entries, q.1 < s.nextId

/-- Modelled from the spec (§4.1 `create`, controller absent from the
sources): validates the payload, fails `ValidationError` when invalid,
otherwise persists a new listing with `ownerId = authenticatedUserId` —
ignoring any owner field of the payload — and returns it. The returned
store is unchanged on failure. -/
def createListing (s : ListingStore) (authenticatedUserId : Nat)
    (payload : CreatePayload) : ListingStore × Except ApiError (Nat × Listing) :=
  if validListingFields payload.fields then
    let entity : Listing := { ownerId := authenticatedUserId, fields := payload.fields }
    ({ entries := s.entries ++ [(s.nextId, entity)], nextId := s.nextId + 1 },
     .ok (s.nextId, entity))
  else
    (s, .error .validationError)

/-- Modelled from the spec (§4.1 `list`, controller absent from the
sources): returns all listings; an empty store yields an empty-but-
successful result. -/
def getAllListings (s : ListingStore) : Except ApiError (List Listing) :=
  .ok (s.entries.map (fun q => q.2))

/-- Modelled from the spec (§4.1 `getById`, controller absent from the
sources): returns the listing with the given identifier, `NotFound` when
absent. Identifiers are naturals here, so the malformed-identifier
`InvalidRequest` branch has no inhabitant in the model. -/
def getListingById (s : ListingStore) (id : Nat) : Except ApiError Listing :=
  match findEntry s.entries id with
  | some e => .ok e
  | none => .error .notFound

/-- A partial update payload: each field optional, provided fields are
merged over the stored ones (spec §4.1 `update`). -/
structure UpdatePatch where
  title : Option String
  description : Option String
  price : Option Int
  condition : Option String
  category : Option String
  status : Option String
deriving DecidableEq, Repr

/-- Merge the provided fields of a patch over stored fields. -/
def mergeFields (f : ListingFields) (p : UpdatePatch) : ListingFields :=
  { title := p.title.getD f.title,
    description := p.description.getD f.description,
    price := p.price.getD f.price,
    condition := p.condition.getD f.condition,
    category := p.category.getD f.category,
    status := p.status.getD f.status }

/-- Modelled from the spec (§4.1 `update`, controller absent from the
sources): `NotFound` if absent, `Forbidden` if the caller is not the
owner, otherwise merges the provided fields, persists, and returns the
updated entity. The store is unchanged on failure. -/
def updateListing (s : ListingStore) (authenticatedUserId id : Nat)
    (patch : UpdatePatch) : ListingStore × Except ApiError Listing :=
  match findEntry s.entries id with
  | none => (s, .error .notFound)
  | some e =>
    if authenticatedUserId = e.ownerId then
      let updated : Listing := { ownerId := e.ownerId, fields := mergeFields e.fields patch }
      ({ entries := replaceEntry s.entries id updated, nextId := s.nextId }, .ok updated)
    else
      (s, .error .forbidden)

/-- Modelled from the spec (§4.1 `delete`, controller absent from the
sources): same ownership check as `update`; removes the entity. The store
is unchanged on failure. -/
def deleteListing (s : ListingStore) (authenticatedUserId id : Nat) :
    ListingStore × Except ApiError Unit :=
  match findEntry s.entries id with
  | none => (s, .error .notFound)
  | some e =>
    if authenticatedUserId = e.ownerId then
      ({ entries := removeEntry s.entries id, nextId := s.nextId }, .ok ())
    else
      (s, .error .forbidden)

/-! ## Authentication middleware (spec §4.2)

The middleware module is absent from the sources; only its error messages
are present (the `ErrorMessages` table, `src/server/src/app.ts` bundle).
The outcome structure is modelled from the spec, the messages are taken
verbatim from the source table. -/

/-- `ErrorMessages.AUTH_NO_TOKEN` from the source table. -/
def AUTH_NO_TOKEN : String := "No token provided, authorization denied."

/-- `ErrorMessages.AUTH_INVALID_TOKEN` from the source table. -/
def AUTH_INVALID_TOKEN : String := "Invalid token bearer, authorization denied."

/-- `ErrorMessages.AUTH_INVALID_JWT_SECRET` from the source table. -/
def AUTH_INVALID_JWT_SECRET : String := "Internal server error: JWT_SECRET is not defined."

/-- The three rejection outcomes of the authentication middleware
(spec §4.2): the two `Unauthorized` credential rejections and the
`InternalError` for unexpected internal failure. -/
inductive AuthFailure where
  | unauthorizedNoToken
  | unauthorizedInvalidToken
  | internalError
deriving DecidableEq, Repr

/-- The message attached to each rejection outcome, from the source
`ErrorMessages` table. -/
def authFailureMessage : AuthFailure → String
  | .unauthorizedNoToken => AUTH_NO_TOKEN
  | .unauthorizedInvalidToken => AUTH_INVALID_TOKEN
  | .internalError => AUTH_INVALID_JWT_SECRET

/-- An incoming request as the middleware sees it: an optional
authorization header. -/
structure AuthRequest where
  authorizationHeader : Option String
deriving DecidableEq, Repr

/-- Modelled from the spec (§4.2, middleware absent from the sources):
extract a bearer credential from the request header; absent header or a
header without the bearer scheme yields no token. The scheme check
compares the first seven characters with `"Bearer "`. -/
def extractBearer (req : AuthRequest) : Option String :=
  match req.authorizationHeader with
  | some h => if h.data.take 7 = "Bearer ".data then some (h.drop 7) else none
  | none => none

/-- Modelled from the spec (§4.2, middleware absent from the sources):
fail `Unauthorized` (no token) when no bearer credential is present; fail
`InternalError` when the server-held secret is missing; verify the
credential against the secret and fail `Unauthorized` (invalid token) on
verification failure; otherwise attach the decoded identity.
`verifyToken secret token` stands for the token library's signature and
expiry check, returning the decoded user identity on success. -/
def authenticate (jwtSecret : Option String)
    (verifyToken : String → String → Option Nat) (req : AuthRequest) :
    Except AuthFailure Nat :=
  match extractBearer req with
  | none => .error .unauthorizedNoToken
  | some token =>
    match jwtSecret with
    | none => .error .internalError
    | some secret =>
      match verifyToken secret token with
      | none => .error .unauthorizedInvalidToken
      | some userId => .ok userId

/-! ## Edit-listing form submission (`src/unnamed/part_002`, `handleSubmit`) -/

/-- Local form state of `EditListingScreen` (`src/unnamed/part_002`): all
six fields are string state; `price` holds the raw text of the price
input. -/
structure EditFormState where
  title : String
  description : String
  price : String
  condition : String
  category : String
  status : String
deriving DecidableEq, Repr

/-- The body passed to `listingsService.updateListing` by `handleSubmit`:
the entered fields, with the price run through `parseFloat`. The number
type produced by `parseFloat` is kept abstract as `α`. -/
structure UpdateRequestBody (α : Type) where
  title : String
  description : String
  price : α
  condition : String
  category : String
  status : String
deriving DecidableEq, Repr

/-- `handleSubmit` of `EditListingScreen` (`src/unnamed/part_002`): rejects
with an alert when a required field is empty, then when the title exceeds
100 characters, then when the description exceeds 500 characters;
otherwise builds the update body (price via `parseFloat`, abstracted as
`pfloat`) and issues the update request. `Sum.inl` is the alert message of
a rejected submission, `Sum.inr` the body of the single request sent. -/
def handleSubmit {α : Type} (pfloat : String → α) (f : EditFormState) :
    String ⊕ UpdateRequestBody α :=
  if f.title = "" ∨ f.description = "" ∨ f.price = "" ∨ f.condition = "" ∨ f.category = "" then
    .inl "Please fill all required fields"
  else if 100 < f.title.length then
    .inl "Title must be 100 characters or less"
  else if 500 < f.description.length then
    .inl "Description must be 500 characters or less"
  else
    .inr { title := f.title, description := f.description, price := pfloat f.price,
           condition := f.condition, category := f.category, status := f.status }

/-- The update requests a `handleSubmit` outcome sends to the server:
none on rejection, exactly the one built body otherwise. -/
def requestsSent {α : Type} : String ⊕ UpdateRequestBody α → List (UpdateRequestBody α)
  | .inl _ => []
  | .inr body => [body]

/-! ## Listing age formatter (`getTimeAgo`, MyProductDetailsScreen in
`src/client/screens/FavoritesScreen.tsx` bundle) -/

/-- `getTimeAgo` from MyProductDetailsScreen, for a post not later than
now: `diffMs` is the elapsed milliseconds `now - postTime` (non-negative,
so `Math.floor` of the day quotient is truncating division). -/
def getTimeAgo (diffMs : Nat) : String :=
  let diffDays := diffMs / (1000 * 60 * 60 * 24)
  if diffDays = 0 then "Today"
  else if diffDays = 1 then "Yesterday"
  else if diffDays < 7 then toString diffDays ++ " days ago"
  else if diffDays < 30 then toString (diffDays / 7) ++ " weeks ago"
  else toString (diffDays / 30) ++ " months ago"

/-! ## Theorems -/

/-- The result of the JavaScript `x || null` is either `null` or truthy. -/
theorem jsOrNull_null_or_truthy (d : Option JValue) :
    jsOrNull d = JValue.null ∨ jsTruthy (jsOrNull d) = true := by
  cases d with
  | none => exact Or.inl rfl
  | some v =>
    cases hb : jsTruthy v with
    | false => left; simp [jsOrNull, hb]
    | true => right; simp [jsOrNull, hb]

/-- C3 counterexample: the body the upload endpoint sends on success is
not the response envelope — it has keys `message` and `base64Preview`
only, no `success`, `data` or `errors` — so not every endpoint's response
body is the envelope. -/
theorem upload_body_not_envelope :
    isEnvelope (uploadImageBody "abc") = false := rfl

/-- C3 (amended): bodies produced through the `sendSuccess` and
`sendError` helpers satisfy the envelope implications with an absent key
read as `null` — `sendSuccess` sets `success = true`, carries the message
and a `data` key, and omits `errors`; `sendError` sets `success = false`,
carries the message and an `errors` key, and omits `data` — while the
upload endpoint bypasses the helpers and its body is not the envelope. -/
theorem envelope_helpers_shape (message : String) (data errors : Option JValue) :
    (sendSuccessBody message data).getField "success" = some (.bool true) ∧
    (sendSuccessBody message data).getField "message" = some (.str message) ∧
    (sendSuccessBody message data).getField "data" = some (jsOrNull data) ∧
    (sendSuccessBody message data).getField "errors" = none ∧
    (sendErrorBody message errors).getField "success" = some (.bool false) ∧
    (sendErrorBody message errors).getField "message" = some (.str message) ∧
    (sendErrorBody message errors).getField "errors" = some (jsOrNull errors) ∧
    (sendErrorBody message errors).getField "data" = none ∧
    (∀ s : String, isEnvelope (uploadImageBody s) = false) := by
  refine ⟨?_, ?_, ?_, ?_, ?_, ?_, ?_, ?_, fun s => rfl⟩ <;>
    simp [sendSuccessBody, sendErrorBody, JValue.getField, lookupField]

/-- C8 counterexample: when the favorites fetch fails with the server's
error envelope carrying the message "Listing not found.", the screen
displays the fixed fallback string, not the envelope's message — the code
reads `err.response.data.error.message`, a path the envelope does not
have. -/
theorem favorites_message_fallback_counterexample :
    favoritesErrorMessage (sendErrorBody "Listing not found." none) =
      JValue.str "Failed to fetch favorites" ∧
    ("Failed to fetch favorites" : String) ≠ "Listing not found." := by
  exact ⟨rfl, by decide⟩

/-- C8 (amended): on a failed favorites fetch whose error carries the
server's error envelope, the screen always displays the fixed fallback
string "Failed to fetch favorites" (the envelope has `message` at top
level and an `errors` key, never an `error.message` path, so the
envelope's message is never surfaced). -/
theorem favorites_error_message_is_fallback (message : String) (errors : Option JValue) :
    favoritesErrorMessage (sendErrorBody message errors) =
      JValue.str "Failed to fetch favorites" := by
  simp [favoritesErrorMessage, sendErrorBody, JValue.getField, lookupField]

/-- C9: whenever the `data` argument of `sendSuccess` is omitted or falsy
(null, zero, the empty string, false), the body's `data` field is `null`;
consequently a success body can never carry zero, the empty string, or
false as its `data` value. -/
theorem sendSuccess_falsy_data_null (message : String) (data : Option JValue) :
    ((data = none ∨ ∃ v, data = some v ∧ jsTruthy v = false) →
      (sendSuccessBody message data).getField "data" = some JValue.null) ∧
    (sendSuccessBody message data).getField "data" ≠ some (.num 0) ∧
    (sendSuccessBody message data).getField "data" ≠ some (.str "") ∧
    (sendSuccessBody message data).getField "data" ≠ some (.bool false) := by
  have hdata : (sendSuccessBody message data).getField "data" = some (jsOrNull data) := by
    simp [sendSuccessBody, JValue.getField, lookupField]
  refine ⟨?_, ?_, ?_, ?_⟩
  · rintro (rfl | ⟨v, rfl, hv⟩)
    · exact hdata
    · rw [hdata]; simp [jsOrNull, hv]
  all_goals
    rw [hdata]
    rcases jsOrNull_null_or_truthy data with h | h
    · simp [h]
    · intro hc
      rw [Option.some_inj] at hc
      rw [hc] at h
      simp [jsTruthy] at h

/-- C9 witness: `sendSuccess` called with the falsy data value `0` puts
`null` in the body's `data` field. -/
theorem sendSuccess_falsy_data_null_witness :
    (sendSuccessBody "ok" (some (.num 0))).getField "data" = some JValue.null :=
  (sendSuccess_falsy_data_null "ok" (some (.num 0))).1
    (Or.inr ⟨.num 0, rfl, by decide⟩)

/-- C10: for a timestamp not later than now (elapsed milliseconds
`diffMs`, whole days `diffMs / 86400000`), `getTimeAgo` returns "Today"
at 0 days, "Yesterday" at 1 day, "n days ago" for 2–6 days, "n/7 weeks
ago" for 7–29 days, and "n/30 months ago" from 30 days on. -/
theorem getTimeAgo_cases (diffMs : Nat) :
    (diffMs / 86400000 = 0 → getTimeAgo diffMs = "Today") ∧
    (diffMs / 86400000 = 1 → getTimeAgo diffMs = "Yesterday") ∧
    (2 ≤ diffMs / 86400000 → diffMs / 86400000 ≤ 6 →
      getTimeAgo diffMs = toString (diffMs / 86400000) ++ " days ago") ∧
    (7 ≤ diffMs / 86400000 → diffMs / 86400000 ≤ 29 →
      getTimeAgo diffMs = toString (diffMs / 86400000 / 7) ++ " weeks ago") ∧
    (30 ≤ diffMs / 86400000 →
      getTimeAgo diffMs = toString (diffMs / 86400000 / 30) ++ " months ago") := by
  have h24 : (1000 * 60 * 60 * 24 : Nat) = 86400000 := by norm_num
  refine ⟨?_, ?_, ?_, ?_, ?_⟩
  · intro h
    simp only [getTimeAgo, h24]
    rw [if_pos h]
  · intro h
    simp only [getTimeAgo, h24]
    rw [if_neg (by omega), if_pos h]
  · intro h2 h6
    simp only [getTimeAgo, h24]
    rw [if_neg (by omega), if_neg (by omega), if_pos (by omega)]
  · intro h7 h29
    simp only [getTimeAgo, h24]
    rw [if_neg (by omega), if_neg (by omega), if_neg (by omega), if_pos (by omega)]
  · intro h30
    simp only [getTimeAgo, h24]
    rw [if_neg (by omega), if_neg (by omega), if_neg (by omega), if_neg (by omega)]

/-- C10 witness: the five cases evaluated at 0 days, 1 day, 3 days,
10 days and 100 days of elapsed time. -/
theorem getTimeAgo_cases_witness :
    getTimeAgo 0 = "Today" ∧
    getTimeAgo 86400000 = "Yesterday" ∧
    getTimeAgo 259200000 = toString (259200000 / 86400000) ++ " days ago" ∧
    getTimeAgo 864000000 = toString (864000000 / 86400000 / 7) ++ " weeks ago" ∧
    getTimeAgo 8640000000 = toString (8640000000 / 86400000 / 30) ++ " months ago" :=
  ⟨(getTimeAgo_cases 0).1 (by decide),
   (getTimeAgo_cases 86400000).2.1 (by decide),
   (getTimeAgo_cases 259200000).2.2.1 (by decide) (by decide),
   (getTimeAgo_cases 864000000).2.2.2.1 (by decide) (by decide),
   (getTimeAgo_cases 8640000000).2.2.2.2 (by decide)⟩

/-- Sample user-supplied fields used by the concrete witnesses (the
scenario of spec §8). -/
def sampleFields : ListingFields :=
  { title := "Desk", description := "Wood desk", price := 40,
    condition := "used", category := "Furniture", status := "available" }

/-- A sample stored listing owned by user 7. -/
def sampleListing : Listing := { ownerId := 7, fields := sampleFields }

/-- A sample store holding the single sample listing under identifier 0. -/
def sampleStore : ListingStore := { entries := [(0, sampleListing)], nextId := 1 }

/-- A sample partial update setting only the status. -/
def samplePatch : UpdatePatch :=
  { title := none, description := none, price := none,
    condition := none, category := none, status := some "unavailable" }

/-- C1: for every valid create payload, `create` persists and returns an
entity whose `ownerId` is the authenticated caller, whatever owner field
the payload carries. -/
theorem create_sets_owner_to_caller (s : ListingStore) (uid : Nat) (p : CreatePayload)
    (hvalid : validListingFields p.fields = true) :
    (createListing s uid p).2 = .ok (s.nextId, { ownerId := uid, fields := p.fields }) ∧
    (s.nextId, ({ ownerId := uid, fields := p.fields } : Listing)) ∈
      (createListing s uid p).1.entries := by
  unfold createListing
  rw [if_pos hvalid]
  exact ⟨rfl, by simp⟩

/-- C1 witness: creating the sample payload as user 7, with an owner field
claiming user 99, persists and returns a listing owned by 7. -/
theorem create_sets_owner_witness :
    (createListing { entries := [], nextId := 0 } 7
        { fields := sampleFields, ownerField := some 99 }).2 =
      .ok (0, ({ ownerId := 7, fields := sampleFields } : Listing)) ∧
    (0, ({ ownerId := 7, fields := sampleFields } : Listing)) ∈
      (createListing { entries := [], nextId := 0 } 7
        { fields := sampleFields, ownerField := some 99 }).1.entries :=
  create_sets_owner_to_caller { entries := [], nextId := 0 } 7
    { fields := sampleFields, ownerField := some 99 } (by decide)

/-- C2: an update or delete attempt on a stored entity by an
authenticated non-owner fails `Forbidden` and leaves the store — in
particular the stored entity, every field of it — unchanged. -/
theorem nonowner_mutation_forbidden_unchanged (s : ListingStore) (uid id : Nat)
    (patch : UpdatePatch) (e : Listing)
    (hfind : findEntry s.entries id = some e) (hown : uid ≠ e.ownerId) :
    updateListing s uid id patch = (s, .error .forbidden) ∧
    deleteListing s uid id = (s, .error .forbidden) ∧
    findEntry (updateListing s uid id patch).1.entries id = some e := by
  have h1 : updateListing s uid id patch = (s, .error .forbidden) := by
    simp [updateListing, hfind, hown]
  have h2 : deleteListing s uid id = (s, .error .forbidden) := by
    simp [deleteListing, hfind, hown]
  exact ⟨h1, h2, by rw [h1]; exact hfind⟩

/-- C2 witness: user 8 attempting to update or delete the sample listing
owned by user 7 gets `Forbidden` and the stored listing is untouched. -/
theorem nonowner_mutation_witness :
    updateListing sampleStore 8 0 samplePatch = (sampleStore, .error .forbidden) ∧
    deleteListing sampleStore 8 0 = (sampleStore, .error .forbidden) ∧
    findEntry (updateListing sampleStore 8 0 samplePatch).1.entries 0 = some sampleListing :=
  nonowner_mutation_forbidden_unchanged sampleStore 8 0 samplePatch sampleListing
    (by decide) (by decide)

/-- C4: `list()` never fails — it returns a success for every store — and
on a store with no listings the success carries the empty sequence. -/
theorem list_empty_store_success (s : ListingStore) :
    (∃ xs, getAllListings s = .ok xs) ∧
    (s.entries = [] → getAllListings s = .ok ([] : List Listing)) := by
  refine ⟨⟨_, rfl⟩, fun h => ?_⟩
  unfold getAllListings
  rw [h]
  rfl

/-- C4 witness: listing on the empty store succeeds with the empty
sequence. -/
theorem list_empty_store_witness :
    getAllListings { entries := [], nextId := 0 } = .ok ([] : List Listing) :=
  (list_empty_store_success { entries := [], nextId := 0 }).2 rfl

/-- C5: the authentication middleware fails `Unauthorized` (no token)
when no bearer credential is present, fails `Unauthorized` (invalid
token) when verification against the server-held secret rejects the
credential, fails `InternalError` when the server-held secret is missing,
and the `InternalError` outcome — message included — is distinct from the
two `Unauthorized` credential-rejection outcomes. -/
theorem auth_middleware_outcomes (jwtSecret : Option String)
    (verifyToken : String → String → Option Nat) (req : AuthRequest) :
    (extractBearer req = none →
      authenticate jwtSecret verifyToken req = .error .unauthorizedNoToken) ∧
    (∀ token secret, extractBearer req = some token → jwtSecret = some secret →
      verifyToken secret token = none →
      authenticate jwtSecret verifyToken req = .error .unauthorizedInvalidToken) ∧
    (∀ token, extractBearer req = some token → jwtSecret = none →
      authenticate jwtSecret verifyToken req = .error .internalError) ∧
    (AuthFailure.internalError ≠ AuthFailure.unauthorizedNoToken ∧
      AuthFailure.internalError ≠ AuthFailure.unauthorizedInvalidToken) ∧
    (authFailureMessage .internalError ≠ authFailureMessage .unauthorizedNoToken ∧
      authFailureMessage .internalError ≠ authFailureMessage .unauthorizedInvalidToken) := by
  refine ⟨fun h => ?_, fun token secret ht hs hv => ?_, fun token ht hs => ?_,
    ⟨by decide, by decide⟩, ⟨by decide, by decide⟩⟩
  · simp [authenticate, h]
  · simp [authenticate, ht, hs, hv]
  · simp [authenticate, ht, hs]

/-- C5 witness: the three outcomes at concrete requests — no header, a
bearer token the verifier rejects, and a bearer token with the server
secret missing. -/
theorem auth_middleware_witness :
    authenticate (some "secret") (fun _ _ => none) { authorizationHeader := none } =
      .error .unauthorizedNoToken ∧
    authenticate (some "secret") (fun _ _ => none)
        { authorizationHeader := some "Bearer tok" } =
      .error .unauthorizedInvalidToken ∧
    authenticate none (fun _ _ => none) { authorizationHeader := some "Bearer tok" } =
      .error .internalError :=
  ⟨(auth_middleware_outcomes (some "secret") (fun _ _ => none)
      { authorizationHeader := none }).1 rfl,
   (auth_middleware_outcomes (some "secret") (fun _ _ => none)
      { authorizationHeader := some "Bearer tok" }).2.1 "tok" "secret" (by decide) rfl rfl,
   (auth_middleware_outcomes none (fun _ _ => none)
      { authorizationHeader := some "Bearer tok" }).2.2.1 "tok" (by decide) rfl⟩

/-- C6: the edit-listing submission sends no update request when a
required field (title, description, price, condition, category) is empty
or the title exceeds 100 characters or the description exceeds 500
characters; otherwise it sends exactly one update request carrying the
entered fields. -/
theorem edit_submit_validation {α : Type} (pfloat : String → α) (f : EditFormState) :
    ((f.title = "" ∨ f.description = "" ∨ f.price = "" ∨ f.condition = "" ∨
        f.category = "" ∨ 100 < f.title.length ∨ 500 < f.description.length) →
      requestsSent (handleSubmit pfloat f) = []) ∧
    (f.title ≠ "" → f.description ≠ "" → f.price ≠ "" → f.condition ≠ "" →
      f.category ≠ "" → f.title.length ≤ 100 → f.description.length ≤ 500 →
      requestsSent (handleSubmit pfloat f) =
        [{ title := f.title, description := f.description, price := pfloat f.price,
           condition := f.condition, category := f.category, status := f.status }]) := by
  constructor
  · intro h
    have hm : ∃ msg, handleSubmit pfloat f = .inl msg := by
      unfold handleSubmit
      split_ifs with h1 h2 h3
      · exact ⟨_, rfl⟩
      · exact ⟨_, rfl⟩
      · exact ⟨_, rfl⟩
      · exact absurd h (by tauto)
    obtain ⟨msg, hmsg⟩ := hm
    rw [hmsg]
    rfl
  · intro ht hd hp hc hcat hl1 hl2
    have hm : handleSubmit pfloat f =
        .inr { title := f.title, description := f.description, price := pfloat f.price,
               condition := f.condition, category := f.category, status := f.status } := by
      unfold handleSubmit
      rw [if_neg (by tauto), if_neg (by omega), if_neg (by omega)]
    rw [hm]
    rfl

/-- C6 witness: a submission with an empty title sends no request; a
fully valid submission sends exactly the one request with the entered
fields. -/
theorem edit_submit_validation_witness :
    requestsSent (handleSubmit (fun s => s)
      { title := "", description := "Wood desk", price := "40",
        condition := "used", category := "Furniture", status := "available" }) = [] ∧
    requestsSent (handleSubmit (fun s => s)
      { title := "Desk", description := "Wood desk", price := "40",
        condition := "used", category := "Furniture", status := "available" }) =
      [{ title := "Desk", description := "Wood desk", price := "40",
         condition := "used", category := "Furniture", status := "available" }] :=
  ⟨(edit_submit_validation (fun s => s)
      { title := "", description := "Wood desk", price := "40",
        condition := "used", category := "Furniture", status := "available" }).1
      (Or.inl rfl),
   (edit_submit_validation (fun s => s)
      { title := "Desk", description := "Wood desk", price := "40",
        condition := "used", category := "Furniture", status := "available" }).2
      (by decide) (by decide) (by decide) (by decide) (by decide)
      (by decide) (by decide)⟩

/-- A lookup in a collection extended with a fresh identifier finds the
new entry. -/
theorem findEntry_append_fresh (l : List (Nat × Listing)) (id : Nat) (e : Listing)
    (h : ∀ q ∈ l, q.1 ≠ id) : findEntry (l ++ [(id, e)]) id = some e := by
  induction l with
  | nil => simp [findEntry]
  | cons q rest ih =>
    simp only [List.cons_append, findEntry]
    rw [if_neg (h q (by simp))]
    exact ih (fun q' hq' => h q' (by simp [hq']))

/-- C7: on a well-formed store, creating a valid payload and immediately
fetching by the returned identifier yields a record whose user-supplied
fields all equal the created ones. -/
theorem create_then_get_roundtrip (s : ListingStore) (uid : Nat) (p : CreatePayload)
    (hwf : WellFormedStore s) (hvalid : validListingFields p.fields = true) :
    ∃ id e, (createListing s uid p).2 = .ok (id, e) ∧
      getListingById (createListing s uid p).1 id = .ok e ∧
      e.fields = p.fields := by
  refine ⟨s.nextId, { ownerId := uid, fields := p.fields }, ?_, ?_, rfl⟩
  · unfold createListing
    rw [if_pos hvalid]
  · unfold createListing
    rw [if_pos hvalid]
    unfold getListingById
    rw [findEntry_append_fresh s.entries s.nextId _
      (fun q hq => Nat.ne_of_lt (hwf q hq))]

/-- C7 witness: creating the sample payload in the empty store and
fetching by the returned identifier round-trips the user-supplied
fields. -/
theorem create_then_get_roundtrip_witness :
    ∃ id e, (createListing { entries := [], nextId := 0 } 7
        { fields := sampleFields, ownerField := none }).2 = .ok (id, e) ∧
      getListingById (createListing { entries := [], nextId := 0 } 7
        { fields := sampleFields, ownerField := none }).1 id = .ok e ∧
      e.fields = sampleFields :=
  create_then_get_roundtrip { entries := [], nextId := 0 } 7
    { fields := sampleFields, ownerField := none }
    (fun q hq => by simp at hq) (by decide)

end Marketplace
